import Mathlib

/-!
# Verification of the todo-app specification against its source

This file shallowly embeds the parts of the repository that the spec's
claims are about:

* the Task Ownership Gate (JWT verification and path/identity matching),
  whose reference implementation appears as the `get_current_user` and
  `create_task` code patterns in `src/unnamed/part_015` and
  `src/specs/api/rest-endpoints.md`;
* the backend CRUD handlers and their owner-filtered storage queries
  (`src/specs/database/schema.md`, `src/unnamed/part_013`);
* the frontend API client `src/unnamed/part_002` (`apiRequest`, `tasksAPI`);
* the simplified auth module `src/.specify/lib/auth.js`
  (`getUser`/`getToken`/`setAuth`/`clearAuth`/`login`/`signup`/
  `isAuthenticated`);
* the task form `src/frontend/components/TodoForm.js` (`handleSubmit`).

JavaScript / Python strings are embedded as `List Char`; JS `Date.now()`
is a natural-number millisecond parameter (the code divides it by 1000
to obtain whole-second `iat`/`exp` claims); `localStorage` is an
association list from keys to stored strings.
-/

namespace TodoSpec

/-- JS strings are embedded as lists of characters. -/
abbrev JStr := List Char

/-- Conversion from Lean string literals into the embedding. -/
def str (s : String) : JStr := s.data

deriving instance DecidableEq for Except

/-! ## The Task Ownership Gate

Modelled from the spec: the backend module `backend/app/auth.py` is not
present under `src/`; the definitions below follow the reference code
patterns given verbatim in `src/unnamed/part_015` (US-5 `get_current_user`,
US-6 `create_task`) and `src/specs/api/rest-endpoints.md`
("User ID Validation").
-/

/-- The claims of a decoded JWT, as used by the route handlers: the
pattern reads the caller identity from `current_user["id"]`
(populated from the token's `sub` claim per US-5). -/
structure Payload where
  id : JStr
deriving DecidableEq

/-- A JWT credential, modelled as tagged data per the spec's design note
("model as a tagged result type ... rather than throwing/catching
loosely-typed exceptions"): `sub` carries the asserted identity,
`signedWith` the secret the token was signed with, `exp` its expiry
(seconds), and `wellFormed` whether the token parses at all. -/
structure Jwt where
  sub : JStr
  exp : Nat
  signedWith : JStr
  wellFormed : Bool
deriving DecidableEq

/-- Modelled from the spec: `jwt.decode` comes from the pyjwt library,
which is not part of the repository. Per US-5 of `src/unnamed/part_015`,
verification succeeds with the token claims exactly when the token is
well formed, its signature matches `BETTER_AUTH_SECRET`, and it is not
expired; a bad signature, expiry, or malformed token raises
`jwt.InvalidTokenError`, i.e. yields `none` here. -/
def jwtDecode (secret : JStr) (now : Nat) (t : Jwt) : Option Payload :=
  if t.wellFormed && t.signedWith == secret && decide (now < t.exp) then
    some ⟨t.sub⟩
  else
    none

/-- The `Authorization` header: a scheme word and the credential it
carries (the Python pattern checks `authorization.startswith("Bearer ")`
and takes `authorization.split(" ")[1]` as the token). -/
structure AuthHeader where
  scheme : JStr
  token : Jwt
deriving DecidableEq

/-- `get_current_user` from the US-5 code pattern in
`src/unnamed/part_015` lines 123-136: missing header or wrong scheme →
401; token that fails `jwt.decode` → 401; otherwise the decoded payload
is returned. `Except.error ()` stands for
`HTTPException(status_code=401)`. -/
def get_current_user (secret : JStr) (now : Nat)
    (authorization : Option AuthHeader) : Except Unit Payload :=
  match authorization with
  | none => .error ()
  | some h =>
    if h.scheme ≠ str "Bearer" then .error ()
    else
      match jwtDecode secret now h.token with
      | some payload => .ok payload
      | none => .error ()

/-- The outcome of the Task Ownership Gate: proceed with the
authenticated identity, or reject with 401 (`unauthenticated`) or 403
(`forbidden`). -/
inductive GateOutcome where
  | allowed (uid : JStr)
  | unauthenticated
  | forbidden
deriving DecidableEq

/-- The Task Ownership Gate as run at the top of every route handler
(US-6 `create_task` pattern, `src/unnamed/part_015` lines 157-166):
first `Depends(get_current_user)` — a 401 there rejects the request —
then `if current_user["id"] != user_id: raise HTTPException(403)`. -/
def ownershipGate (secret : JStr) (now : Nat) (path_user_id : JStr)
    (authorization : Option AuthHeader) : GateOutcome :=
  match get_current_user secret now authorization with
  | .error _ => .unauthenticated
  | .ok current_user =>
    if current_user.id ≠ path_user_id then .forbidden
    else .allowed current_user.id

/-- If the gate allows, the identity it returns is the path identity. -/
theorem gate_allowed_eq {secret : JStr} {now : Nat} {path : JStr}
    {auth : Option AuthHeader} {uid : JStr}
    (h : ownershipGate secret now path auth = .allowed uid) :
    uid = path := by
  unfold ownershipGate at h
  cases hg : get_current_user secret now auth with
  | error e => rw [hg] at h; cases h
  | ok p =>
    rw [hg] at h
    by_cases hid : p.id ≠ path
    · simp [hid] at h
    · simp [hid] at h
      push_neg at hid
      exact h ▸ hid

/-- Claim C1: for every request carrying a valid credential whose
authenticated identity differs from the path identity, the gate rejects
with the Forbidden outcome (HTTP 403) and never with the Unauthenticated
outcome (HTTP 401). -/
theorem claim_C1 (secret : JStr) (now : Nat) (path : JStr)
    (auth : Option AuthHeader) (p : Payload)
    (hvalid : get_current_user secret now auth = .ok p)
    (hne : p.id ≠ path) :
    ownershipGate secret now path auth = .forbidden ∧
      ownershipGate secret now path auth ≠ .unauthenticated := by
  unfold ownershipGate
  rw [hvalid]
  simp [hne]

/-- Witness for C1: a well-signed, unexpired token for `"u1"` presented
against path identity `"u2"` yields Forbidden, not Unauthenticated. -/
theorem claim_C1_witness :
    ownershipGate (str "s") 5 (str "u2")
        (some ⟨str "Bearer", ⟨str "u1", 10, str "s", true⟩⟩) = .forbidden ∧
      ownershipGate (str "s") 5 (str "u2")
        (some ⟨str "Bearer", ⟨str "u1", 10, str "s", true⟩⟩) ≠
        .unauthenticated :=
  claim_C1 (str "s") 5 (str "u2")
    (some ⟨str "Bearer", ⟨str "u1", 10, str "s", true⟩⟩)
    ⟨str "u1"⟩ (by decide) (by decide)

/-- A bad signature makes credential verification fail. -/
theorem gcu_error_of_sig (secret : JStr) (now : Nat) (h : AuthHeader)
    (hsig : h.token.signedWith ≠ secret) :
    get_current_user secret now (some h) = .error () := by
  unfold get_current_user jwtDecode
  by_cases hs : h.scheme ≠ str "Bearer" <;> simp [hs, hsig]

/-- An expired token makes credential verification fail. -/
theorem gcu_error_of_exp (secret : JStr) (now : Nat) (h : AuthHeader)
    (hexp : ¬ now < h.token.exp) :
    get_current_user secret now (some h) = .error () := by
  unfold get_current_user jwtDecode
  by_cases hs : h.scheme ≠ str "Bearer" <;> simp [hs, hexp]

/-- A malformed token makes credential verification fail. -/
theorem gcu_error_of_malformed (secret : JStr) (now : Nat) (h : AuthHeader)
    (hwf : h.token.wellFormed = false) :
    get_current_user secret now (some h) = .error () := by
  unfold get_current_user jwtDecode
  by_cases hs : h.scheme ≠ str "Bearer" <;> simp [hs, hwf]

/-- A failed verification sends the gate to Unauthenticated. -/
theorem gate_unauthenticated_of_error (secret : JStr) (now : Nat)
    (path : JStr) (auth : Option AuthHeader)
    (hfail : get_current_user secret now auth = .error ()) :
    ownershipGate secret now path auth = .unauthenticated ∧
      ownershipGate secret now path auth ≠ .forbidden := by
  unfold ownershipGate
  rw [hfail]
  simp

/-- Claim C2: for every request with no credential, or with a credential
that fails verification (bad signature, expired, malformed), the gate
rejects with Unauthenticated (HTTP 401) and never Forbidden (HTTP 403);
moreover each of those failure modes does make `get_current_user`
fail. -/
theorem claim_C2 (secret : JStr) (now : Nat) (path : JStr)
    (auth : Option AuthHeader) (h : AuthHeader) :
    (get_current_user secret now auth = .error () →
      ownershipGate secret now path auth = .unauthenticated ∧
        ownershipGate secret now path auth ≠ .forbidden) ∧
    get_current_user secret now none = .error () ∧
    (h.token.signedWith ≠ secret →
      get_current_user secret now (some h) = .error ()) ∧
    (¬ now < h.token.exp →
      get_current_user secret now (some h) = .error ()) ∧
    (h.token.wellFormed = false →
      get_current_user secret now (some h) = .error ()) :=
  ⟨gate_unauthenticated_of_error secret now path auth, rfl,
   gcu_error_of_sig secret now h, gcu_error_of_exp secret now h,
   gcu_error_of_malformed secret now h⟩

/-- Witness for C2: a missing credential yields Unauthenticated and not
Forbidden, and an expired token for `"u1"` fails verification. -/
theorem claim_C2_witness :
    (ownershipGate (str "s") 99 (str "u1") none = .unauthenticated ∧
      ownershipGate (str "s") 99 (str "u1") none ≠ .forbidden) ∧
    get_current_user (str "s") 99
      (some ⟨str "Bearer", ⟨str "u1", 10, str "s", true⟩⟩) = .error () :=
  ⟨(claim_C2 (str "s") 99 (str "u1") none
      ⟨str "Bearer", ⟨str "u1", 10, str "s", true⟩⟩).1 (by decide),
   (claim_C2 (str "s") 99 (str "u1")
      (some ⟨str "Bearer", ⟨str "u1", 10, str "s", true⟩⟩)
      ⟨str "Bearer", ⟨str "u1", 10, str "s", true⟩⟩).2.2.2.1 (by decide)⟩

/-- Claim C4: for every request carrying a valid credential whose
authenticated identity equals the path identity, the gate allows the
request to proceed. -/
theorem claim_C4 (secret : JStr) (now : Nat) (path : JStr)
    (auth : Option AuthHeader) (p : Payload)
    (hvalid : get_current_user secret now auth = .ok p)
    (heq : p.id = path) :
    ownershipGate secret now path auth = .allowed path := by
  unfold ownershipGate
  rw [hvalid]
  simp [heq]

/-- Witness for C4: the spec's scenario — a valid credential for `"u1"`
against path identity `"u1"` is allowed. -/
theorem claim_C4_witness :
    ownershipGate (str "s") 5 (str "u1")
      (some ⟨str "Bearer", ⟨str "u1", 10, str "s", true⟩⟩) =
      .allowed (str "u1") :=
  claim_C4 (str "s") 5 (str "u1")
    (some ⟨str "Bearer", ⟨str "u1", 10, str "s", true⟩⟩)
    ⟨str "u1"⟩ (by decide) (by decide)

/-- Claim C5: every rejected request gets exactly one of the two
outcomes (Unauthenticated or Forbidden), and sub-reasons are not
distinguished: an expired credential, a malformed credential and a
bad-signature credential all produce the very same outcome as a missing
credential (which is Unauthenticated). -/
theorem claim_C5 (secret : JStr) (now : Nat) (path : JStr)
    (auth : Option AuthHeader) (h : AuthHeader) :
    ((∀ uid, ownershipGate secret now path auth ≠ .allowed uid) →
      ownershipGate secret now path auth = .unauthenticated ∨
        ownershipGate secret now path auth = .forbidden) ∧
    ownershipGate secret now path none = .unauthenticated ∧
    (¬ now < h.token.exp →
      ownershipGate secret now path (some h) =
        ownershipGate secret now path none) ∧
    (h.token.wellFormed = false →
      ownershipGate secret now path (some h) =
        ownershipGate secret now path none) ∧
    (h.token.signedWith ≠ secret →
      ownershipGate secret now path (some h) =
        ownershipGate secret now path none) := by
  have hnone : ownershipGate secret now path none = .unauthenticated := rfl
  have collapse : get_current_user secret now (some h) = .error () →
      ownershipGate secret now path (some h) =
        ownershipGate secret now path none := by
    intro hfail
    rw [hnone]
    unfold ownershipGate
    rw [hfail]
  refine ⟨?_, hnone, ?_, ?_, ?_⟩
  · intro hrej
    cases hg : ownershipGate secret now path auth with
    | allowed uid => exact absurd hg (hrej uid)
    | unauthenticated => exact Or.inl rfl
    | forbidden => exact Or.inr rfl
  · intro hexp
    exact collapse (gcu_error_of_exp secret now h hexp)
  · intro hwf
    exact collapse (gcu_error_of_malformed secret now h hwf)
  · intro hsig
    exact collapse (gcu_error_of_sig secret now h hsig)

/-- Witness for C5: with a gate evaluation that is not an allow (expired
token), the outcome is one of the two rejection outcomes, and the
expired token collapses to the same outcome as a missing credential. -/
theorem claim_C5_witness :
    (ownershipGate (str "s") 99 (str "u1")
        (some ⟨str "Bearer", ⟨str "u1", 10, str "s", true⟩⟩) =
        .unauthenticated ∨
      ownershipGate (str "s") 99 (str "u1")
        (some ⟨str "Bearer", ⟨str "u1", 10, str "s", true⟩⟩) =
        .forbidden) ∧
    ownershipGate (str "s") 99 (str "u1")
        (some ⟨str "Bearer", ⟨str "u1", 10, str "s", true⟩⟩) =
      ownershipGate (str "s") 99 (str "u1") none :=
  ⟨(claim_C5 (str "s") 99 (str "u1")
      (some ⟨str "Bearer", ⟨str "u1", 10, str "s", true⟩⟩)
      ⟨str "Bearer", ⟨str "u1", 10, str "s", true⟩⟩).1
      (by
        intro uid hmm
        rw [show ownershipGate (str "s") 99 (str "u1")
            (some ⟨str "Bearer", ⟨str "u1", 10, str "s", true⟩⟩) =
            .unauthenticated from by decide] at hmm
        exact GateOutcome.noConfusion hmm),
   (claim_C5 (str "s") 99 (str "u1")
      (some ⟨str "Bearer", ⟨str "u1", 10, str "s", true⟩⟩)
      ⟨str "Bearer", ⟨str "u1", 10, str "s", true⟩⟩).2.2.1 (by decide)⟩

/-! ## `localStorage` and the simplified auth module

`src/.specify/lib/auth.js`. `localStorage` is a string-keyed map of
strings, embedded as an association list; `window` being defined (the
code guards every access with `typeof window === 'undefined'`) is an
explicit boolean. -/

/-- The string-to-string `localStorage` store. -/
abbrev Storage := List (JStr × JStr)

/-- `localStorage.getItem`. -/
def getItem (k : JStr) : Storage → Option JStr
  | [] => none
  | (k', v) :: rest => if k' = k then some v else getItem k rest

/-- `localStorage.removeItem`. -/
def removeItem (k : JStr) : Storage → Storage
  | [] => []
  | (k', v) :: rest =>
    if k' = k then removeItem k rest else (k', v) :: removeItem k rest

/-- `localStorage.setItem`. -/
def setItem (k v : JStr) (s : Storage) : Storage := (k, v) :: removeItem k s

theorem getItem_setItem_self (k v : JStr) (s : Storage) :
    getItem k (setItem k v s) = some v := by
  simp [setItem, getItem]

theorem getItem_removeItem_self (k : JStr) (s : Storage) :
    getItem k (removeItem k s) = none := by
  induction s with
  | nil => rfl
  | cons p rest ih =>
    obtain ⟨k0, v⟩ := p
    by_cases h : k0 = k
    · simpa [removeItem, h] using ih
    · simpa [removeItem, getItem, h] using ih

theorem getItem_removeItem_ne (k k' : JStr) (s : Storage) (h : k' ≠ k) :
    getItem k (removeItem k' s) = getItem k s := by
  induction s with
  | nil => rfl
  | cons p rest ih =>
    obtain ⟨k0, v⟩ := p
    by_cases h0 : k0 = k'
    · simp [removeItem, getItem, h0, h, ih]
    · by_cases h1 : k0 = k
      · simp [removeItem, getItem, h0, h1, Ne.symm h]
      · simp [removeItem, getItem, h0, h1, ih]

theorem getItem_setItem_ne (k k' v : JStr) (s : Storage) (h : k' ≠ k) :
    getItem k (setItem k' v s) = getItem k s := by
  simp [setItem, getItem, h, getItem_removeItem_ne k k' s h]

/-- The key `'auth_token'` (`AUTH_TOKEN_KEY`). -/
def AUTH_TOKEN_KEY : JStr := str "auth_token"

/-- The key `'auth_user'` (`AUTH_USER_KEY`). -/
def AUTH_USER_KEY : JStr := str "auth_user"

/-- The user objects `auth.js` stores: `{ id, email, name }`. -/
structure User where
  id : JStr
  email : JStr
  name : JStr
deriving DecidableEq

/-- `JSON.stringify` on a `{ id, email, name }` object (escape-free
fields: the development only instantiates it on strings without `"`,
`\` or control characters, which JSON serializes verbatim). -/
def stringifyUser (u : User) : JStr :=
  str "\x7b\"id\":\"" ++ u.id ++ str "\",\"email\":\"" ++ u.email ++
    str "\",\"name\":\"" ++ u.name ++ str "\"\x7d"

/-! ### `JSON.parse`

A faithful executable JSON parser (RFC 8259 grammar, as `JSON.parse`
implements it): values are null / true / false / numbers / strings
(with escapes) / arrays / objects; numbers use the strict JSON numeral
grammar and are kept exactly as decimal mantissa × 10^exponent.
Granularity notes: `\u` escapes denoting surrogate halves are rejected
rather than combined (no claim touches them), and numbers are exact —
IEEE-754 rounding is not modelled except where it is observable through
truthiness, namely the underflow of tiny magnitudes to `±0`, which
`jsTruthy` accounts for below. -/

/-- A parsed JSON value. Object members are kept in source order (JS
keeps the last value for a duplicated key; nothing here reads fields,
so the member list is the faithful granularity). -/
inductive JsValue where
  | vnull
  | vtrue
  | vfalse
  | vnum (mantissa : Int) (exponent : Int)
  | vstr (s : JStr)
  | varr (elems : List JsValue)
  | vobj (members : List (JStr × JsValue))

/-- JSON insignificant whitespace (space, tab, line feed, carriage
return). -/
def jsonWs (c : Char) : Bool :=
  c = ' ' || c = '\t' || c = '\n' || c = '\r'

/-- Skip insignificant whitespace. -/
def skipWs (s : JStr) : JStr := s.dropWhile jsonWs

/-- Hexadecimal digit value. -/
def hexVal (c : Char) : Option Nat :=
  if '0' ≤ c ∧ c ≤ '9' then some (c.toNat - '0'.toNat)
  else if 'a' ≤ c ∧ c ≤ 'f' then some (c.toNat - 'a'.toNat + 10)
  else if 'A' ≤ c ∧ c ≤ 'F' then some (c.toNat - 'A'.toNat + 10)
  else none

/-- The single-character JSON string escapes. -/
def escChar (e : Char) : Option Char :=
  if e = '\"' then some '\"'
  else if e = '\\' then some '\\'
  else if e = '/' then some '/'
  else if e = 'b' then some (Char.ofNat 8)
  else if e = 'f' then some (Char.ofNat 12)
  else if e = 'n' then some '\n'
  else if e = 'r' then some '\r'
  else if e = 't' then some '\t'
  else none

/-- Parse the body of a JSON string literal (the opening quote already
consumed) up to and including the closing quote: decoded characters and
the rest of the input. Raw control characters and invalid escapes fail,
as in `JSON.parse`. -/
def parseStringBody : JStr → Option (JStr × JStr)
  | [] => none
  | c :: rest =>
    if c = '\"' then some ([], rest)
    else if c = '\\' then
      match rest with
      | [] => none
      | e :: rest2 =>
        if e = 'u' then
          match rest2 with
          | h1 :: h2 :: h3 :: h4 :: rest3 =>
            match hexVal h1, hexVal h2, hexVal h3, hexVal h4 with
            | some a, some b, some c2, some d =>
              let code := ((a * 16 + b) * 16 + c2) * 16 + d
              if code < 55296 ∨ (57343 < code ∧ code < 1114112) then
                match parseStringBody rest3 with
                | some (out, r) => some (Char.ofNat code :: out, r)
                | none => none
              else none
            | _, _, _, _ => none
          | _ => none
        else
          match escChar e with
          | some ch =>
            match parseStringBody rest2 with
            | some (out, r) => some (ch :: out, r)
            | none => none
          | none => none
    else if c.toNat < 32 then none
    else
      match parseStringBody rest with
      | some (out, r) => some (c :: out, r)
      | none => none

/-- ASCII decimal digit. -/
def isDigit (c : Char) : Bool := '0' ≤ c && c ≤ '9'

/-- Value of a digit run, most significant first. -/
def digitsVal (acc : Nat) : JStr → Nat
  | [] => acc
  | c :: rest => digitsVal (acc * 10 + (c.toNat - '0'.toNat)) rest

/-- The optional `.digits` fraction part: its digits (empty when
absent) and the rest. -/
def parseFrac : JStr → Option (JStr × JStr)
  | '.' :: r =>
    if (r.takeWhile isDigit).isEmpty then none
    else some (r.takeWhile isDigit, r.dropWhile isDigit)
  | s => some ([], s)

/-- The optional `e`/`E` exponent part: its signed value (0 when
absent) and the rest. -/
def parseExp : JStr → Option (Int × JStr)
  | [] => some (0, [])
  | c :: r =>
    if c = 'e' ∨ c = 'E' then
      match r with
      | '+' :: r2 =>
        if (r2.takeWhile isDigit).isEmpty then none
        else some ((digitsVal 0 (r2.takeWhile isDigit) : Nat),
          r2.dropWhile isDigit)
      | '-' :: r2 =>
        if (r2.takeWhile isDigit).isEmpty then none
        else some (-(digitsVal 0 (r2.takeWhile isDigit) : Nat),
          r2.dropWhile isDigit)
      | _ =>
        if (r.takeWhile isDigit).isEmpty then none
        else some ((digitsVal 0 (r.takeWhile isDigit) : Nat),
          r.dropWhile isDigit)
    else some (0, c :: r)

/-- A JSON number: `-?(0|[1-9][0-9]*)(\.[0-9]+)?([eE][+-]?[0-9]+)?`.
A leading zero may not be followed by more integer digits; the excess
is left in the rest, where the surrounding grammar rejects it, exactly
as `JSON.parse` rejects `01`. -/
def parseNumber (s : JStr) : Option (JsValue × JStr) :=
  let signed : Bool × JStr :=
    match s with
    | '-' :: r => (true, r)
    | _ => (false, s)
  match signed.2 with
  | [] => none
  | c :: r =>
    if !isDigit c then none
    else
      let intDigits := if c = '0' then ['0'] else c :: r.takeWhile isDigit
      let rest1 := if c = '0' then r else r.dropWhile isDigit
      match parseFrac rest1 with
      | none => none
      | some (fracDigits, rest2) =>
        match parseExp rest2 with
        | none => none
        | some (expVal, rest3) =>
          let mNat := digitsVal 0 (intDigits ++ fracDigits)
          let m : Int := if signed.1 then -(mNat : Int) else (mNat : Int)
          some (.vnum m (expVal - (fracDigits.length : Int)), rest3)

mutual

/-- Parse one JSON value. The fuel only bounds nesting; the top level
passes `length + 1`, which never runs out because every recursive
descent first consumes at least one character. -/
def parseValue : Nat → JStr → Option (JsValue × JStr)
  | 0, _ => none
  | fuel + 1, s =>
    match s with
    | [] => none
    | c :: r =>
      if c = '\"' then
        match parseStringBody r with
        | some (out, r2) => some (.vstr out, r2)
        | none => none
      else if c = '\x7b' then parseObjStart fuel (skipWs r)
      else if c = '[' then parseArrayStart fuel (skipWs r)
      else if c = 'n' then
        match r with
        | 'u' :: 'l' :: 'l' :: r2 => some (.vnull, r2)
        | _ => none
      else if c = 't' then
        match r with
        | 'r' :: 'u' :: 'e' :: r2 => some (.vtrue, r2)
        | _ => none
      else if c = 'f' then
        match r with
        | 'a' :: 'l' :: 's' :: 'e' :: r2 => some (.vfalse, r2)
        | _ => none
      else parseNumber (c :: r)

/-- After `\x7b` and whitespace: an empty object or the first member
then the member tail. -/
def parseObjStart : Nat → JStr → Option (JsValue × JStr)
  | 0, _ => none
  | fuel + 1, s =>
    match s with
    | [] => none
    | c :: r =>
      if c = '\x7d' then some (.vobj [], r)
      else if c = '\"' then
        match parseStringBody r with
        | some (key, r2) =>
          match skipWs r2 with
          | ':' :: r3 =>
            match parseValue fuel (skipWs r3) with
            | some (v, r4) =>
              match parseObjRest fuel (skipWs r4) with
              | some (ms, r5) => some (.vobj ((key, v) :: ms), r5)
              | none => none
            | none => none
          | _ => none
        | none => none
      else none

/-- After a member and whitespace: `\x7d` ends the object, `,` demands
another member (no trailing comma, as in `JSON.parse`). -/
def parseObjRest : Nat → JStr → Option (List (JStr × JsValue) × JStr)
  | 0, _ => none
  | fuel + 1, s =>
    match s with
    | [] => none
    | c :: r =>
      if c = '\x7d' then some ([], r)
      else if c = ',' then
        match skipWs r with
        | '\"' :: r2 =>
          match parseStringBody r2 with
          | some (key, r3) =>
            match skipWs r3 with
            | ':' :: r4 =>
              match parseValue fuel (skipWs r4) with
              | some (v, r5) =>
                match parseObjRest fuel (skipWs r5) with
                | some (ms, r6) => some ((key, v) :: ms, r6)
                | none => none
              | none => none
            | _ => none
          | none => none
        | _ => none
      else none

/-- After `[` and whitespace: an empty array or the first element then
the element tail. -/
def parseArrayStart : Nat → JStr → Option (JsValue × JStr)
  | 0, _ => none
  | fuel + 1, s =>
    match s with
    | [] => none
    | c :: r =>
      if c = ']' then some (.varr [], r)
      else
        match parseValue fuel (c :: r) with
        | some (v, r2) =>
          match parseArrayRest fuel (skipWs r2) with
          | some (vs, r3) => some (.varr (v :: vs), r3)
          | none => none
        | none => none

/-- After an element and whitespace: `]` ends the array, `,` demands
another element (no trailing comma). -/
def parseArrayRest : Nat → JStr → Option (List JsValue × JStr)
  | 0, _ => none
  | fuel + 1, s =>
    match s with
    | [] => none
    | c :: r =>
      if c = ']' then some ([], r)
      else if c = ',' then
        match parseValue fuel (skipWs r) with
        | some (v, r2) =>
          match parseArrayRest fuel (skipWs r2) with
          | some (vs, r3) => some (v :: vs, r3)
          | none => none
        | none => none
      else none

end

/-- `JSON.parse`: exactly one value, surrounded only by insignificant
whitespace; anything else throws, i.e. yields `none`. -/
def jsonParse (s : JStr) : Option JsValue :=
  match parseValue (s.length + 1) (skipWs s) with
  | some (v, r) => if skipWs r = [] then some v else none
  | none => none

/-- JS truthiness of a parsed JSON value: `null`, `false`, `±0` and the
empty string are falsy; everything else (including any object or array)
is truthy. A number is `±0` as a double exactly when its exact decimal
magnitude is at most `2^(-1075)`, the round-to-nearest-even underflow
boundary below the smallest subnormal — e.g. `JSON.parse('1e-400')`
is `0` and falsy, which `mantissa ≠ 0` alone would miss. -/
def jsTruthy : JsValue → Bool
  | .vnull => false
  | .vtrue => true
  | .vfalse => false
  | .vnum m e =>
    decide (m ≠ 0) &&
      (decide (0 ≤ e) || decide (10 ^ (-e).toNat < m.natAbs * 2 ^ 1075))
  | .vstr s => !s.isEmpty
  | .varr _ => true
  | .vobj _ => true

/-- The JSON value `JSON.parse` recovers from `stringifyUser u`. -/
def userJsValue (u : User) : JsValue :=
  .vobj [(str "id", .vstr u.id), (str "email", .vstr u.email),
    (str "name", .vstr u.name)]

/-- `getUser()`: `null` outside a browser; otherwise read `auth_user`
(`if (!userStr) return null` — the empty string is falsy) and
`JSON.parse` it; a parse there throws into the `catch`, which returns
`null`, and a parsed JSON `null` is returned as-is, so both are `none`
to the caller. -/
def getUser (window : Bool) (s : Storage) : Option JsValue :=
  if !window then none
  else
    match getItem AUTH_USER_KEY s with
    | none => none
    | some userStr =>
      if userStr.isEmpty then none
      else
        match jsonParse userStr with
        | some JsValue.vnull => none
        | some v => some v
        | none => none

/-- `getToken()`: `null` outside a browser, else the raw
`auth_token` entry. -/
def getToken (window : Bool) (s : Storage) : Option JStr :=
  if !window then none else getItem AUTH_TOKEN_KEY s

/-- `setAuth(user, token)`: a no-op outside a browser; otherwise store
the stringified user then the token. -/
def setAuth (window : Bool) (user : User) (token : JStr) (s : Storage) :
    Storage :=
  if !window then s
  else setItem AUTH_TOKEN_KEY token (setItem AUTH_USER_KEY (stringifyUser user) s)

/-- `clearAuth()`: a no-op outside a browser; otherwise remove both
keys. -/
def clearAuth (window : Bool) (s : Storage) : Storage :=
  if !window then s
  else removeItem AUTH_TOKEN_KEY (removeItem AUTH_USER_KEY s)

/-- `isAuthenticated()`: `!!getToken() && !!getUser()` — JS truthiness
on both operands: a token that is the empty string is falsy, and the
value `getUser()` returns is tested for truthiness (a stored `"0"`
parses to the falsy number `0`). -/
def isAuthenticated (window : Bool) (s : Storage) : Bool :=
  (match getToken window s with
   | none => false
   | some t => !t.isEmpty) &&
  (match getUser window s with
   | none => false
   | some v => jsTruthy v)

/-- `parseStringBody` reads a quote-, backslash- and control-free field
up to its closing quote. -/
theorem parseStringBody_field (fld rest : JStr)
    (h : ∀ x ∈ fld, x ≠ '\"' ∧ x ≠ '\\' ∧ 32 ≤ x.toNat) :
    parseStringBody (fld ++ '\"' :: rest) = some (fld, rest) := by
  induction fld with
  | nil =>
    rw [List.nil_append, parseStringBody.eq_def]
    simp
  | cons a l ih =>
    obtain ⟨ha1, ha2, ha3⟩ := h a (List.mem_cons_self a l)
    have hrec := ih (fun x hx => h x (List.mem_cons_of_mem a hx))
    rw [List.cons_append, parseStringBody.eq_def]
    simp only [if_neg ha1, if_neg ha2, if_neg (show ¬ a.toNat < 32 by omega),
      hrec]

/-- `stringifyUser` in explicit character form. -/
theorem stringifyUser_eq (i e n : JStr) :
    stringifyUser ⟨i, e, n⟩ =
    '\x7b' :: '\"' :: 'i' :: 'd' :: '\"' :: ':' :: '\"' ::
      (i ++ ('\"' :: ',' :: '\"' :: 'e' :: 'm' :: 'a' :: 'i' :: 'l' ::
          '\"' :: ':' :: '\"' ::
        (e ++ ('\"' :: ',' :: '\"' :: 'n' :: 'a' :: 'm' :: 'e' ::
            '\"' :: ':' :: '\"' ::
          (n ++ ['\"', '\x7d']))))) := by
  show str "\x7b\"id\":\"" ++ i ++ str "\",\"email\":\"" ++ e ++
      str "\",\"name\":\"" ++ n ++ str "\"\x7d" = _
  rw [show str "\x7b\"id\":\"" =
      ['\x7b', '\"', 'i', 'd', '\"', ':', '\"'] from by decide,
    show str "\",\"email\":\"" =
      ['\"', ',', '\"', 'e', 'm', 'a', 'i', 'l', '\"', ':', '\"'] from by
        decide,
    show str "\",\"name\":\"" =
      ['\"', ',', '\"', 'n', 'a', 'm', 'e', '\"', ':', '\"'] from by decide,
    show str "\"\x7d" = ['\"', '\x7d'] from by decide]
  simp [List.append_assoc]

/-- `parseStringBody` reads the concrete key `"id"`. -/
theorem parseStringBody_key_id (X : JStr) :
    parseStringBody ('i' :: 'd' :: '\"' :: X) = some (['i', 'd'], X) := by
  simpa using parseStringBody_field ['i', 'd'] X (by decide)

/-- `parseStringBody` reads the concrete key `"email"`. -/
theorem parseStringBody_key_email (X : JStr) :
    parseStringBody ('e' :: 'm' :: 'a' :: 'i' :: 'l' :: '\"' :: X) =
      some (['e', 'm', 'a', 'i', 'l'], X) := by
  simpa using parseStringBody_field ['e', 'm', 'a', 'i', 'l'] X (by decide)

/-- `parseStringBody` reads the concrete key `"name"`. -/
theorem parseStringBody_key_name (X : JStr) :
    parseStringBody ('n' :: 'a' :: 'm' :: 'e' :: '\"' :: X) =
      some (['n', 'a', 'm', 'e'], X) := by
  simpa using parseStringBody_field ['n', 'a', 'm', 'e'] X (by decide)

/-- Running the value grammar over a stringified user object parses the
three members and consumes the whole input. -/
theorem parseValue_userObj (f : Nat) (i e n : JStr)
    (hi : ∀ x ∈ i, x ≠ '\"' ∧ x ≠ '\\' ∧ 32 ≤ x.toNat)
    (he : ∀ x ∈ e, x ≠ '\"' ∧ x ≠ '\\' ∧ 32 ≤ x.toNat)
    (hn : ∀ x ∈ n, x ≠ '\"' ∧ x ≠ '\\' ∧ 32 ≤ x.toNat) :
    parseValue (f + 7)
      ('\x7b' :: '\"' :: 'i' :: 'd' :: '\"' :: ':' :: '\"' ::
        (i ++ ('\"' :: ',' :: '\"' :: 'e' :: 'm' :: 'a' :: 'i' :: 'l' ::
            '\"' :: ':' :: '\"' ::
          (e ++ ('\"' :: ',' :: '\"' :: 'n' :: 'a' :: 'm' :: 'e' ::
              '\"' :: ':' :: '\"' ::
            (n ++ ['\"', '\x7d'])))))) =
    some (JsValue.vobj [(['i', 'd'], JsValue.vstr i),
      (['e', 'm', 'a', 'i', 'l'], JsValue.vstr e),
      (['n', 'a', 'm', 'e'], JsValue.vstr n)], []) := by
  have hfldi := parseStringBody_field i
    (',' :: '\"' :: 'e' :: 'm' :: 'a' :: 'i' :: 'l' :: '\"' :: ':' :: '\"' ::
      (e ++ ('\"' :: ',' :: '\"' :: 'n' :: 'a' :: 'm' :: 'e' :: '\"' ::
        ':' :: '\"' :: (n ++ ['\"', '\x7d'])))) hi
  have hflde := parseStringBody_field e
    (',' :: '\"' :: 'n' :: 'a' :: 'm' :: 'e' :: '\"' :: ':' :: '\"' ::
      (n ++ ['\"', '\x7d'])) he
  have hfldn := parseStringBody_field n ['\x7d'] hn
  simp [parseValue, parseObjStart, parseObjRest, skipWs, jsonWs,
    hfldi, hflde, hfldn, parseStringBody_key_id, parseStringBody_key_email,
    parseStringBody_key_name]

/-- `JSON.parse ∘ JSON.stringify` recovers the user object (escape-free
fields). -/
theorem jsonParse_stringifyUser (i e n : JStr)
    (hi : ∀ x ∈ i, x ≠ '\"' ∧ x ≠ '\\' ∧ 32 ≤ x.toNat)
    (he : ∀ x ∈ e, x ≠ '\"' ∧ x ≠ '\\' ∧ 32 ≤ x.toNat)
    (hn : ∀ x ∈ n, x ≠ '\"' ∧ x ≠ '\\' ∧ 32 ≤ x.toNat) :
    jsonParse (stringifyUser ⟨i, e, n⟩) = some (userJsValue ⟨i, e, n⟩) := by
  rw [stringifyUser_eq]
  have hlen : ('\x7b' :: '\"' :: 'i' :: 'd' :: '\"' :: ':' :: '\"' ::
      (i ++ ('\"' :: ',' :: '\"' :: 'e' :: 'm' :: 'a' :: 'i' :: 'l' ::
          '\"' :: ':' :: '\"' ::
        (e ++ ('\"' :: ',' :: '\"' :: 'n' :: 'a' :: 'm' :: 'e' ::
            '\"' :: ':' :: '\"' ::
          (n ++ ['\"', '\x7d'])))))).length + 1 =
      (i.length + e.length + n.length + 24) + 7 := by
    simp
    omega
  have hskip : skipWs ('\x7b' :: '\"' :: 'i' :: 'd' :: '\"' :: ':' :: '\"' ::
      (i ++ ('\"' :: ',' :: '\"' :: 'e' :: 'm' :: 'a' :: 'i' :: 'l' ::
          '\"' :: ':' :: '\"' ::
        (e ++ ('\"' :: ',' :: '\"' :: 'n' :: 'a' :: 'm' :: 'e' ::
            '\"' :: ':' :: '\"' ::
          (n ++ ['\"', '\x7d'])))))) =
      '\x7b' :: '\"' :: 'i' :: 'd' :: '\"' :: ':' :: '\"' ::
      (i ++ ('\"' :: ',' :: '\"' :: 'e' :: 'm' :: 'a' :: 'i' :: 'l' ::
          '\"' :: ':' :: '\"' ::
        (e ++ ('\"' :: ',' :: '\"' :: 'n' :: 'a' :: 'm' :: 'e' ::
            '\"' :: ':' :: '\"' ::
          (n ++ ['\"', '\x7d']))))) := by
    simp [skipWs, jsonWs]
  rw [jsonParse, hskip, hlen,
    parseValue_userObj (i.length + e.length + n.length + 24) i e n hi he hn]
  have hk1 : str "id" = ['i', 'd'] := by decide
  have hk2 : str "email" = ['e', 'm', 'a', 'i', 'l'] := by decide
  have hk3 : str "name" = ['n', 'a', 'm', 'e'] := by decide
  simp [userJsValue, hk1, hk2, hk3, skipWs]

/-- Counterexample to claim C9 as stated ("isAuthenticated() returns
true exactly when both getToken() and getUser() return non-null
values"): `isAuthenticated()` tests JS truthiness, not nullness, on
both operands. First state: the stored token is the empty string —
`getToken()` returns it (non-null) and `getUser()` returns a non-null
object, yet `isAuthenticated()` is `false`. Second state: the stored
`auth_user` is the string `"0"` — `JSON.parse('0')` succeeds with the
falsy number `0`, so with a non-empty token both getters return
non-null values and `isAuthenticated()` is still `false`. -/
theorem claim_C9_counterexample :
    (getToken true (setAuth true ⟨str "u", str "e", str "n"⟩ (str "") []) =
        some (str "") ∧
      (getUser true
        (setAuth true ⟨str "u", str "e", str "n"⟩ (str "") [])).isSome =
        true ∧
      isAuthenticated true
        (setAuth true ⟨str "u", str "e", str "n"⟩ (str "") []) = false) ∧
    (getToken true [(AUTH_USER_KEY, str "0"), (AUTH_TOKEN_KEY, str "x")] =
        some (str "x") ∧
      str "x" ≠ [] ∧
      (getUser true
        [(AUTH_USER_KEY, str "0"), (AUTH_TOKEN_KEY, str "x")]).isSome =
        true ∧
      isAuthenticated true
        [(AUTH_USER_KEY, str "0"), (AUTH_TOKEN_KEY, str "x")] = false) := by
  decide

/-- Claim C9 (amended): after `setAuth(user, token)` the stored state
round-trips (`getUser()` returns the object parsed back from the stored
JSON, JSON-equal to `user`; `getToken()` returns `token`); after
`clearAuth()` both are null; `isAuthenticated()` is true exactly when
`getToken()` returns a non-null, non-empty string and `getUser()`
returns a truthy value; it is false when `window` is undefined; and it
does not inspect the token's contents (no expiry check). -/
theorem claim_C9_amended (u : User) (tok : JStr) (s : Storage)
    (hi : ∀ x ∈ u.id, x ≠ '\"' ∧ x ≠ '\\' ∧ 32 ≤ x.toNat)
    (he : ∀ x ∈ u.email, x ≠ '\"' ∧ x ≠ '\\' ∧ 32 ≤ x.toNat)
    (hn : ∀ x ∈ u.name, x ≠ '\"' ∧ x ≠ '\\' ∧ 32 ≤ x.toNat) :
    (getUser true (setAuth true u tok s) = some (userJsValue u) ∧
      getToken true (setAuth true u tok s) = some tok) ∧
    (∀ s' : Storage, getUser true (clearAuth true s') = none ∧
      getToken true (clearAuth true s') = none) ∧
    (∀ s' : Storage, isAuthenticated true s' = true ↔
      ((∃ t, getToken true s' = some t ∧ t ≠ []) ∧
        ∃ v, getUser true s' = some v ∧ jsTruthy v = true)) ∧
    (∀ s' : Storage, isAuthenticated false s' = false) ∧
    (∀ (u' : User) (t1 t2 : JStr) (s' : Storage), t1 ≠ [] → t2 ≠ [] →
      isAuthenticated true (setAuth true u' t1 s') =
        isAuthenticated true (setAuth true u' t2 s')) := by
  have hkeys : AUTH_TOKEN_KEY ≠ AUTH_USER_KEY := by decide
  refine ⟨⟨?_, ?_⟩, ?_, ?_, ?_, ?_⟩
  · obtain ⟨i, e, n⟩ := u
    have hempty : (stringifyUser ⟨i, e, n⟩).isEmpty = false := by
      rw [stringifyUser_eq]
      rfl
    simp only [getUser, setAuth, Bool.not_true, Bool.false_eq_true,
      if_false, getItem_setItem_ne _ _ _ _ hkeys, getItem_setItem_self,
      hempty, jsonParse_stringifyUser i e n hi he hn, userJsValue]
  · simp [getToken, setAuth, getItem_setItem_self]
  · intro s'
    simp [getUser, getToken, clearAuth, getItem_removeItem_self,
      getItem_removeItem_ne _ _ _ hkeys]
  · intro s'
    simp only [isAuthenticated]
    cases ht : getToken true s' with
    | none => simp
    | some t =>
      cases hu : getUser true s' with
      | none => simp [List.isEmpty_iff]
      | some v => simp [List.isEmpty_iff]
  · intro s'
    rfl
  · intro u' t1 t2 s' h1 h2
    have e1 : t1.isEmpty = false := by simpa [List.isEmpty_iff] using h1
    have e2 : t2.isEmpty = false := by simpa [List.isEmpty_iff] using h2
    simp [isAuthenticated, getToken, getUser, setAuth, getItem_setItem_self,
      getItem_setItem_ne _ _ _ _ hkeys, e1, e2]

/-- Witness for the amended C9: a concrete browser state where the
stored user round-trips and a non-empty token authenticates. -/
theorem claim_C9_amended_witness :
    getUser true (setAuth true ⟨str "u1", str "a@b.c", str "a"⟩
        (str "tok") []) =
      some (userJsValue ⟨str "u1", str "a@b.c", str "a"⟩) ∧
    getToken true (setAuth true ⟨str "u1", str "a@b.c", str "a"⟩
        (str "tok") []) = some (str "tok") :=
  (claim_C9_amended ⟨str "u1", str "a@b.c", str "a"⟩ (str "tok") []
    (by decide) (by decide) (by decide)).1

/-! ### `login` / `signup` -/

/-- Decimal rendering of a natural number (for `JSON.stringify` of the
numeric payload fields). -/
def natDigits (n : Nat) : JStr := Nat.toDigits 10 n

/-- The Task entity (`src/specs/database/schema.md`). -/
structure Task where
  id : JStr
  user_id : JStr
  title : JStr
  description : JStr
  completed : Bool
  created_at : Nat
  updated_at : Nat
deriving DecidableEq

/-- The `TaskCreate` / `TaskUpdate` request body. -/
structure TaskCreate where
  title : JStr
  description : JStr
deriving DecidableEq

/-- A storage access, recorded with the owner filter of its `WHERE`
clause (`select(Task).where(Task.user_id == user_id)`); an insert is
recorded with the owner it is scoped to. -/
structure Query where
  userFilter : Option JStr
deriving DecidableEq

/-- The task-scoped operations of the REST surface
(`/api/{user_id}/tasks/*`). -/
inductive Op where
  | list_tasks
  | get_task (task_id : JStr)
  | create_task (data : TaskCreate)
  | update_task (task_id : JStr) (data : TaskCreate)
  | delete_task (task_id : JStr)
  | toggle_completion (task_id : JStr) (completed : Bool)

/-- A handler response: a task list, a task, 204 No Content, or an
error status. -/
inductive ApiResp where
  | okList (tasks : List Task)
  | okTask (t : Task)
  | noContent
  | err (status : Nat)
deriving DecidableEq

/-- The `WHERE Task.id == task_id AND Task.user_id == user_id` filter
used by the single-task queries. -/
def taskMatch (tid uid : JStr) (t : Task) : Bool :=
  t.id == tid && t.user_id == uid

/-- One request through the backend: gate first (401/403 before any
storage access), then the schema.md CRUD pattern for the operation, all
storage queries filtered by the authenticated identity. Returns the
response, resulting store, and the recorded storage accesses. -/
def handleOp (secret : JStr) (now : Nat) (path_user_id : JStr)
    (authorization : Option AuthHeader) (newId : JStr) (op : Op)
    (store : List Task) : ApiResp × List Task × List Query :=
  match ownershipGate secret now path_user_id authorization with
  | .unauthenticated => (.err 401, store, [])
  | .forbidden => (.err 403, store, [])
  | .allowed uid =>
    match op with
    | .list_tasks =>
      (.okList (store.filter (fun t => t.user_id == uid)), store,
        [⟨some uid⟩])
    | .get_task tid =>
      match store.find? (taskMatch tid uid) with
      | some t => (.okTask t, store, [⟨some uid⟩])
      | none => (.err 404, store, [⟨some uid⟩])
    | .create_task d =>
      let t : Task := ⟨newId, uid, d.title, d.description, false, now, now⟩
      (.okTask t, t :: store, [⟨some uid⟩])
    | .update_task tid d =>
      match store.find? (taskMatch tid uid) with
      | some t0 =>
        let t1 := { t0 with title := d.title, description := d.description,
                            updated_at := now }
        (.okTask t1, store.map (fun t => if taskMatch tid uid t then t1 else t),
          [⟨some uid⟩])
      | none => (.err 404, store, [⟨some uid⟩])
    | .delete_task tid =>
      match store.find? (taskMatch tid uid) with
      | some _ =>
        (.noContent, store.filter (fun t => !(taskMatch tid uid t)),
          [⟨some uid⟩])
      | none => (.err 404, store, [⟨some uid⟩])
    | .toggle_completion tid c =>
      match store.find? (taskMatch tid uid) with
      | some t0 =>
        let t1 := { t0 with completed := c, updated_at := now }
        (.okTask t1, store.map (fun t => if taskMatch tid uid t then t1 else t),
          [⟨some uid⟩])
      | none => (.err 404, store, [⟨some uid⟩])

theorem update_mem_new (tid uid : JStr) (t1 : Task) (h1 : t1.user_id = uid)
    (store : List Task) :
    ∀ t ∈ store.map (fun t => if taskMatch tid uid t then t1 else t),
      t ∉ store → t.user_id = uid := by
  intro t ht hnot
  obtain ⟨y, hy, hyt⟩ := List.mem_map.mp ht
  by_cases hc : taskMatch tid uid y
  · rw [if_pos hc] at hyt
    rw [← hyt]
    exact h1
  · rw [if_neg hc] at hyt
    exact absurd (hyt ▸ hy) hnot

theorem update_mem_old (tid uid : JStr) (t1 : Task) (store : List Task) :
    ∀ t ∈ store,
      t ∉ store.map (fun t => if taskMatch tid uid t then t1 else t) →
      t.user_id = uid := by
  intro t ht hnot
  by_cases hc : taskMatch tid uid t
  · simp only [taskMatch, Bool.and_eq_true, beq_iff_eq] at hc
    exact hc.2
  · exact absurd (List.mem_map.mpr ⟨t, ht, by rw [if_neg hc]⟩) hnot

/-! ## Client endpoint construction (`tasksAPI`, `src/unnamed/part_002`)

Percent-encoding of `URLSearchParams` is not modelled (parameter names
are fixed ASCII; values pass through). -/

/-- The optional list filters of `tasksAPI.list`. `none` stands for a
JS `undefined` field. -/
structure Filters where
  completed : Option JStr
  search : Option JStr
  sort : Option JStr
  order : Option JStr

/-- The `URLSearchParams` built by `tasksAPI.list`: `completed` when
defined and not `'all'`, and `search`/`sort`/`order` when truthy. -/
def queryParams (f : Filters) : List (JStr × JStr) :=
  (match f.completed with
   | some c => if c ≠ str "all" then [(str "completed", c)] else []
   | none => []) ++
  (match f.search with
   | some s => if s ≠ [] then [(str "search", s)] else []
   | none => []) ++
  (match f.sort with
   | some s => if s ≠ [] then [(str "sort", s)] else []
   | none => []) ++
  (match f.order with
   | some o => if o ≠ [] then [(str "order", o)] else []
   | none => [])

/-- `URLSearchParams.toString`: `k=v` pairs joined by `&`. -/
def renderParams : List (JStr × JStr) → JStr
  | [] => []
  | [(k, v)] => k ++ '=' :: v
  | (k, v) :: p :: rest => k ++ '=' :: v ++ '&' :: renderParams (p :: rest)

/-- `params.toString() ? '?' + params.toString() : ''`. -/
def renderQuery (ps : List (JStr × JStr)) : JStr :=
  if ps.isEmpty then [] else '?' :: renderParams ps

/-- Endpoint of `tasksAPI.list`. -/
def ep_list (userId : JStr) (f : Filters) : JStr :=
  str "/api/" ++ userId ++ str "/tasks" ++ renderQuery (queryParams f)

/-- Endpoint of `tasksAPI.get`. -/
def ep_get (userId taskId : JStr) : JStr :=
  str "/api/" ++ userId ++ str "/tasks/" ++ taskId

/-- Endpoint of `tasksAPI.create`. -/
def ep_create (userId : JStr) : JStr :=
  str "/api/" ++ userId ++ str "/tasks"

/-- Endpoint of `tasksAPI.update`. -/
def ep_update (userId taskId : JStr) : JStr :=
  str "/api/" ++ userId ++ str "/tasks/" ++ taskId

/-- Endpoint of `tasksAPI.delete`. -/
def ep_delete (userId taskId : JStr) : JStr :=
  str "/api/" ++ userId ++ str "/tasks/" ++ taskId

/-- Endpoint of `tasksAPI.toggleComplete`. -/
def ep_toggleComplete (userId taskId : JStr) : JStr :=
  str "/api/" ++ userId ++ str "/tasks/" ++ taskId ++ str "/complete"

/-- The common owner-scoped base `/api/<userId>/tasks` of every
`tasksAPI` endpoint. -/
def apiBase (userId : JStr) : JStr :=
  str "/api/" ++ userId ++ str "/tasks"

/-- Claim C3: task operations are performed only by a caller whose
authenticated identity equals the task's owner id — a gate rejection
happens before any storage access (no query issued, store untouched);
every storage query issued after the gate passes is filtered by the
authenticated identity (which the gate made equal to the path identity);
every task returned, created, modified or removed is owned by that
identity; and in the client every `tasksAPI` method builds its endpoint
on the owner-scoped base `/api/<userId>/tasks`. -/
theorem claim_C3 :
    (∀ (secret : JStr) (now : Nat) (path : JStr) (auth : Option AuthHeader)
        (newId : JStr) (op : Op) (store : List Task),
      ((ownershipGate secret now path auth = .unauthenticated ∨
          ownershipGate secret now path auth = .forbidden) →
        (handleOp secret now path auth newId op store).2.2 = [] ∧
          (handleOp secret now path auth newId op store).2.1 = store) ∧
      (∀ q ∈ (handleOp secret now path auth newId op store).2.2,
        q.userFilter = some path) ∧
      (∀ ts, (handleOp secret now path auth newId op store).1 = .okList ts →
        ∀ t ∈ ts, t.user_id = path) ∧
      (∀ t, (handleOp secret now path auth newId op store).1 = .okTask t →
        t.user_id = path) ∧
      (∀ t ∈ (handleOp secret now path auth newId op store).2.1,
        t ∉ store → t.user_id = path) ∧
      (∀ t ∈ store,
        t ∉ (handleOp secret now path auth newId op store).2.1 →
        t.user_id = path)) ∧
    (∀ (userId taskId : JStr) (f : Filters),
      ep_create userId = apiBase userId ∧
      ep_list userId f = apiBase userId ++ renderQuery (queryParams f) ∧
      ep_get userId taskId = apiBase userId ++ ('/' :: taskId) ∧
      ep_update userId taskId = apiBase userId ++ ('/' :: taskId) ∧
      ep_delete userId taskId = apiBase userId ++ ('/' :: taskId) ∧
      ep_toggleComplete userId taskId =
        apiBase userId ++ ('/' :: (taskId ++ str "/complete"))) := by
  constructor
  · intro secret now path auth newId op store
    cases hg : ownershipGate secret now path auth with
    | unauthenticated =>
      have hresp : (handleOp secret now path auth newId op store).1 =
          .err 401 := by simp [handleOp, hg]
      have hstore : (handleOp secret now path auth newId op store).2.1 =
          store := by simp [handleOp, hg]
      have hlog : (handleOp secret now path auth newId op store).2.2 =
          [] := by simp [handleOp, hg]
      refine ⟨fun _ => ⟨hlog, hstore⟩, ?_, ?_, ?_, ?_, ?_⟩
      · intro q hq
        rw [hlog] at hq
        exact absurd hq (List.not_mem_nil q)
      · intro ts hts
        rw [hresp] at hts
        exact ApiResp.noConfusion hts
      · intro t ht
        rw [hresp] at ht
        exact ApiResp.noConfusion ht
      · intro t ht hnot
        rw [hstore] at ht
        exact absurd ht hnot
      · intro t ht hnot
        rw [hstore] at hnot
        exact absurd ht hnot
    | forbidden =>
      have hresp : (handleOp secret now path auth newId op store).1 =
          .err 403 := by simp [handleOp, hg]
      have hstore : (handleOp secret now path auth newId op store).2.1 =
          store := by simp [handleOp, hg]
      have hlog : (handleOp secret now path auth newId op store).2.2 =
          [] := by simp [handleOp, hg]
      refine ⟨fun _ => ⟨hlog, hstore⟩, ?_, ?_, ?_, ?_, ?_⟩
      · intro q hq
        rw [hlog] at hq
        exact absurd hq (List.not_mem_nil q)
      · intro ts hts
        rw [hresp] at hts
        exact ApiResp.noConfusion hts
      · intro t ht
        rw [hresp] at ht
        exact ApiResp.noConfusion ht
      · intro t ht hnot
        rw [hstore] at ht
        exact absurd ht hnot
      · intro t ht hnot
        rw [hstore] at hnot
        exact absurd ht hnot
    | allowed uid =>
      have hup : uid = path := gate_allowed_eq hg
      subst hup
      have hno : (GateOutcome.allowed uid = GateOutcome.unauthenticated ∨
          GateOutcome.allowed uid = GateOutcome.forbidden) → False := by
        rintro (h | h) <;> exact GateOutcome.noConfusion h
      have hquery : ∀ q : Query, q ∈ [(⟨some uid⟩ : Query)] →
          q.userFilter = some uid := by
        intro q hq
        rw [List.mem_singleton.mp hq]
      cases op with
      | list_tasks =>
        have hresp : (handleOp secret now uid auth newId .list_tasks
            store).1 = .okList (store.filter (fun t => t.user_id == uid)) := by
          simp [handleOp, hg]
        have hstore : (handleOp secret now uid auth newId .list_tasks
            store).2.1 = store := by simp [handleOp, hg]
        have hlog : (handleOp secret now uid auth newId .list_tasks
            store).2.2 = [⟨some uid⟩] := by simp [handleOp, hg]
        refine ⟨fun h => absurd h hno, ?_, ?_, ?_, ?_, ?_⟩
        · intro q hq
          exact hquery q (hlog ▸ hq)
        · intro ts hts t htmem
          rw [hresp] at hts
          injection hts with hts
          rw [← hts] at htmem
          exact beq_iff_eq.mp (List.mem_filter.mp htmem).2
        · intro t ht
          rw [hresp] at ht
          exact ApiResp.noConfusion ht
        · intro t ht hnot
          rw [hstore] at ht
          exact absurd ht hnot
        · intro t ht hnot
          rw [hstore] at hnot
          exact absurd ht hnot
      | get_task tid =>
        cases hf : store.find? (taskMatch tid uid) with
        | some t0 =>
          have ht0 : taskMatch tid uid t0 = true := List.find?_some hf
          simp only [taskMatch, Bool.and_eq_true, beq_iff_eq] at ht0
          have hresp : (handleOp secret now uid auth newId (.get_task tid)
              store).1 = .okTask t0 := by simp [handleOp, hg, hf]
          have hstore : (handleOp secret now uid auth newId (.get_task tid)
              store).2.1 = store := by simp [handleOp, hg, hf]
          have hlog : (handleOp secret now uid auth newId (.get_task tid)
              store).2.2 = [⟨some uid⟩] := by simp [handleOp, hg, hf]
          refine ⟨fun h => absurd h hno, ?_, ?_, ?_, ?_, ?_⟩
          · intro q hq
            exact hquery q (hlog ▸ hq)
          · intro ts hts
            rw [hresp] at hts
            exact ApiResp.noConfusion hts
          · intro t ht
            rw [hresp] at ht
            injection ht with ht
            rw [← ht]
            exact ht0.2
          · intro t ht hnot
            rw [hstore] at ht
            exact absurd ht hnot
          · intro t ht hnot
            rw [hstore] at hnot
            exact absurd ht hnot
        | none =>
          have hresp : (handleOp secret now uid auth newId (.get_task tid)
              store).1 = .err 404 := by simp [handleOp, hg, hf]
          have hstore : (handleOp secret now uid auth newId (.get_task tid)
              store).2.1 = store := by simp [handleOp, hg, hf]
          have hlog : (handleOp secret now uid auth newId (.get_task tid)
              store).2.2 = [⟨some uid⟩] := by simp [handleOp, hg, hf]
          refine ⟨fun h => absurd h hno, ?_, ?_, ?_, ?_, ?_⟩
          · intro q hq
            exact hquery q (hlog ▸ hq)
          · intro ts hts
            rw [hresp] at hts
            exact ApiResp.noConfusion hts
          · intro t ht
            rw [hresp] at ht
            exact ApiResp.noConfusion ht
          · intro t ht hnot
            rw [hstore] at ht
            exact absurd ht hnot
          · intro t ht hnot
            rw [hstore] at hnot
            exact absurd ht hnot
      | create_task d =>
        have hresp : (handleOp secret now uid auth newId (.create_task d)
            store).1 =
            .okTask ⟨newId, uid, d.title, d.description, false, now, now⟩ := by
          simp [handleOp, hg]
        have hstore : (handleOp secret now uid auth newId (.create_task d)
            store).2.1 =
            (⟨newId, uid, d.title, d.description, false, now, now⟩ : Task) ::
              store := by simp [handleOp, hg]
        have hlog : (handleOp secret now uid auth newId (.create_task d)
            store).2.2 = [⟨some uid⟩] := by simp [handleOp, hg]
        refine ⟨fun h => absurd h hno, ?_, ?_, ?_, ?_, ?_⟩
        · intro q hq
          exact hquery q (hlog ▸ hq)
        · intro ts hts
          rw [hresp] at hts
          exact ApiResp.noConfusion hts
        · intro t ht
          rw [hresp] at ht
          injection ht with ht
          rw [← ht]
        · intro t ht hnot
          rw [hstore] at ht
          rcases List.mem_cons.mp ht with h | h
          · rw [h]
          · exact absurd h hnot
        · intro t ht hnot
          rw [hstore] at hnot
          exact absurd (List.mem_cons_of_mem _ ht) hnot
      | update_task tid d =>
        cases hf : store.find? (taskMatch tid uid) with
        | some t0 =>
          have ht0 : taskMatch tid uid t0 = true := List.find?_some hf
          simp only [taskMatch, Bool.and_eq_true, beq_iff_eq] at ht0
          have hresp : (handleOp secret now uid auth newId
              (.update_task tid d) store).1 =
              .okTask { t0 with title := d.title, description := d.description,
                                updated_at := now } := by
            simp [handleOp, hg, hf]
          have hstore : (handleOp secret now uid auth newId
              (.update_task tid d) store).2.1 =
              store.map (fun t => if taskMatch tid uid t then
                { t0 with title := d.title, description := d.description,
                          updated_at := now } else t) := by
            simp [handleOp, hg, hf]
          have hlog : (handleOp secret now uid auth newId
              (.update_task tid d) store).2.2 = [⟨some uid⟩] := by
            simp [handleOp, hg, hf]
          refine ⟨fun h => absurd h hno, ?_, ?_, ?_, ?_, ?_⟩
          · intro q hq
            exact hquery q (hlog ▸ hq)
          · intro ts hts
            rw [hresp] at hts
            exact ApiResp.noConfusion hts
          · intro t ht
            rw [hresp] at ht
            injection ht with ht
            rw [← ht]
            exact ht0.2
          · intro t ht hnot
            rw [hstore] at ht
            exact update_mem_new tid uid
              { t0 with title := d.title, description := d.description,
                        updated_at := now } ht0.2 store t ht hnot
          · intro t ht hnot
            rw [hstore] at hnot
            exact update_mem_old tid uid
              { t0 with title := d.title, description := d.description,
                        updated_at := now } store t ht hnot
        | none =>
          have hresp : (handleOp secret now uid auth newId
              (.update_task tid d) store).1 = .err 404 := by
            simp [handleOp, hg, hf]
          have hstore : (handleOp secret now uid auth newId
              (.update_task tid d) store).2.1 = store := by
            simp [handleOp, hg, hf]
          have hlog : (handleOp secret now uid auth newId
              (.update_task tid d) store).2.2 = [⟨some uid⟩] := by
            simp [handleOp, hg, hf]
          refine ⟨fun h => absurd h hno, ?_, ?_, ?_, ?_, ?_⟩
          · intro q hq
            exact hquery q (hlog ▸ hq)
          · intro ts hts
            rw [hresp] at hts
            exact ApiResp.noConfusion hts
          · intro t ht
            rw [hresp] at ht
            exact ApiResp.noConfusion ht
          · intro t ht hnot
            rw [hstore] at ht
            exact absurd ht hnot
          · intro t ht hnot
            rw [hstore] at hnot
            exact absurd ht hnot
      | delete_task tid =>
        cases hf : store.find? (taskMatch tid uid) with
        | some t0 =>
          have hresp : (handleOp secret now uid auth newId
              (.delete_task tid) store).1 = .noContent := by
            simp [handleOp, hg, hf]
          have hstore : (handleOp secret now uid auth newId
              (.delete_task tid) store).2.1 =
              store.filter (fun t => !(taskMatch tid uid t)) := by
            simp [handleOp, hg, hf]
          have hlog : (handleOp secret now uid auth newId
              (.delete_task tid) store).2.2 = [⟨some uid⟩] := by
            simp [handleOp, hg, hf]
          refine ⟨fun h => absurd h hno, ?_, ?_, ?_, ?_, ?_⟩
          · intro q hq
            exact hquery q (hlog ▸ hq)
          · intro ts hts
            rw [hresp] at hts
            exact ApiResp.noConfusion hts
          · intro t ht
            rw [hresp] at ht
            exact ApiResp.noConfusion ht
          · intro t ht hnot
            rw [hstore] at ht
            exact absurd (List.mem_filter.mp ht).1 hnot
          · intro t ht hnot
            rw [hstore] at hnot
            by_cases hc : taskMatch tid uid t
            · simp only [taskMatch, Bool.and_eq_true, beq_iff_eq] at hc
              exact hc.2
            · exact absurd (List.mem_filter.mpr ⟨ht, by simp [hc]⟩) hnot
        | none =>
          have hresp : (handleOp secret now uid auth newId
              (.delete_task tid) store).1 = .err 404 := by
            simp [handleOp, hg, hf]
          have hstore : (handleOp secret now uid auth newId
              (.delete_task tid) store).2.1 = store := by
            simp [handleOp, hg, hf]
          have hlog : (handleOp secret now uid auth newId
              (.delete_task tid) store).2.2 = [⟨some uid⟩] := by
            simp [handleOp, hg, hf]
          refine ⟨fun h => absurd h hno, ?_, ?_, ?_, ?_, ?_⟩
          · intro q hq
            exact hquery q (hlog ▸ hq)
          · intro ts hts
            rw [hresp] at hts
            exact ApiResp.noConfusion hts
          · intro t ht
            rw [hresp] at ht
            exact ApiResp.noConfusion ht
          · intro t ht hnot
            rw [hstore] at ht
            exact absurd ht hnot
          · intro t ht hnot
            rw [hstore] at hnot
            exact absurd ht hnot
      | toggle_completion tid c =>
        cases hf : store.find? (taskMatch tid uid) with
        | some t0 =>
          have ht0 : taskMatch tid uid t0 = true := List.find?_some hf
          simp only [taskMatch, Bool.and_eq_true, beq_iff_eq] at ht0
          have hresp : (handleOp secret now uid auth newId
              (.toggle_completion tid c) store).1 =
              .okTask { t0 with completed := c, updated_at := now } := by
            simp [handleOp, hg, hf]
          have hstore : (handleOp secret now uid auth newId
              (.toggle_completion tid c) store).2.1 =
              store.map (fun t => if taskMatch tid uid t then
                { t0 with completed := c, updated_at := now } else t) := by
            simp [handleOp, hg, hf]
          have hlog : (handleOp secret now uid auth newId
              (.toggle_completion tid c) store).2.2 = [⟨some uid⟩] := by
            simp [handleOp, hg, hf]
          refine ⟨fun h => absurd h hno, ?_, ?_, ?_, ?_, ?_⟩
          · intro q hq
            exact hquery q (hlog ▸ hq)
          · intro ts hts
            rw [hresp] at hts
            exact ApiResp.noConfusion hts
          · intro t ht
            rw [hresp] at ht
            injection ht with ht
            rw [← ht]
            exact ht0.2
          · intro t ht hnot
            rw [hstore] at ht
            exact update_mem_new tid uid
              { t0 with completed := c, updated_at := now } ht0.2 store t ht
              hnot
          · intro t ht hnot
            rw [hstore] at hnot
            exact update_mem_old tid uid
              { t0 with completed := c, updated_at := now } store t ht hnot
        | none =>
          have hresp : (handleOp secret now uid auth newId
              (.toggle_completion tid c) store).1 = .err 404 := by
            simp [handleOp, hg, hf]
          have hstore : (handleOp secret now uid auth newId
              (.toggle_completion tid c) store).2.1 = store := by
            simp [handleOp, hg, hf]
          have hlog : (handleOp secret now uid auth newId
              (.toggle_completion tid c) store).2.2 = [⟨some uid⟩] := by
            simp [handleOp, hg, hf]
          refine ⟨fun h => absurd h hno, ?_, ?_, ?_, ?_, ?_⟩
          · intro q hq
            exact hquery q (hlog ▸ hq)
          · intro ts hts
            rw [hresp] at hts
            exact ApiResp.noConfusion hts
          · intro t ht
            rw [hresp] at ht
            exact ApiResp.noConfusion ht
          · intro t ht hnot
            rw [hstore] at ht
            exact absurd ht hnot
          · intro t ht hnot
            rw [hstore] at hnot
            exact absurd ht hnot
  · intro userId taskId f
    have h7 : str "/tasks/" = str "/tasks" ++ ['/'] := by decide
    refine ⟨rfl, rfl, ?_, ?_, ?_, ?_⟩ <;>
      simp [ep_get, ep_update, ep_delete, ep_toggleComplete, apiBase, h7,
        List.append_assoc]

/-- Witness for C3: on a concrete rejected request no query is issued
and the store is unchanged, and `tasksAPI.get` builds a concrete
owner-scoped endpoint. -/
theorem claim_C3_witness :
    (handleOp (str "s") 5 (str "u1") none (str "t1") .list_tasks
        []).2.2 = [] ∧
      (handleOp (str "s") 5 (str "u1") none (str "t1") .list_tasks
        []).2.1 = [] ∧
    ep_get (str "u1") (str "t9") = apiBase (str "u1") ++ ('/' :: str "t9") := by
  refine ⟨((claim_C3.1 (str "s") 5 (str "u1") none (str "t1") .list_tasks
    []).1 (Or.inl (by decide))).1, ?_, ?_⟩
  · exact ((claim_C3.1 (str "s") 5 (str "u1") none (str "t1") .list_tasks
      []).1 (Or.inl (by decide))).2
  · exact (claim_C3.2 (str "u1") (str "t9")
      ⟨none, none, none, none⟩).2.2.1

/-- Claim C6: the gate's decision is idempotent and deterministic — an
allowed read-only list operation leaves the store unchanged, so running
the very same request again (same credential, same path identity)
produces an identical outcome. -/
theorem claim_C6 (secret : JStr) (now : Nat) (path : JStr)
    (auth : Option AuthHeader) (newId : JStr) (store : List Task)
    (uid : JStr)
    (hallow : ownershipGate secret now path auth = .allowed uid) :
    (handleOp secret now path auth newId .list_tasks store).2.1 = store ∧
    handleOp secret now path auth newId .list_tasks
        ((handleOp secret now path auth newId .list_tasks store).2.1) =
      handleOp secret now path auth newId .list_tasks store := by
  have h1 : (handleOp secret now path auth newId .list_tasks store).2.1 =
      store := by
    simp [handleOp, hallow]
  exact ⟨h1, by rw [h1]⟩

/-- Witness for C6: a concrete allowed list request evaluated twice. -/
theorem claim_C6_witness :
    (handleOp (str "s") 5 (str "u1")
        (some ⟨str "Bearer", ⟨str "u1", 10, str "s", true⟩⟩)
        (str "t1") .list_tasks []).2.1 = [] ∧
    handleOp (str "s") 5 (str "u1")
        (some ⟨str "Bearer", ⟨str "u1", 10, str "s", true⟩⟩)
        (str "t1") .list_tasks
        ((handleOp (str "s") 5 (str "u1")
          (some ⟨str "Bearer", ⟨str "u1", 10, str "s", true⟩⟩)
          (str "t1") .list_tasks []).2.1) =
      handleOp (str "s") 5 (str "u1")
        (some ⟨str "Bearer", ⟨str "u1", 10, str "s", true⟩⟩)
        (str "t1") .list_tasks [] :=
  claim_C6 (str "s") 5 (str "u1")
    (some ⟨str "Bearer", ⟨str "u1", 10, str "s", true⟩⟩)
    (str "t1") [] (str "u1") (by decide)

/-! ## The task form (`src/frontend/components/TodoForm.js`) -/

/-- JS whitespace as far as `String.prototype.trim` is concerned (the
characters that can occur in the embedding's inputs). -/
def isJsSpace (c : Char) : Bool :=
  c = ' ' || c = '\t' || c = '\n' || c = '\r'

/-- `String.prototype.trim`. -/
def jsTrim (s : JStr) : JStr :=
  ((s.dropWhile isJsSpace).reverse.dropWhile isJsSpace).reverse

/-- Outcome of the form's `handleSubmit`: either the error state is set
and `onSubmit` is not called, or `onSubmit` is called with the (raw)
title and description. -/
inductive FormOutcome where
  | rejected (error : JStr)
  | submitted (title description : JStr)
deriving DecidableEq

/-- `handleSubmit` from `TodoForm.js` lines 20-34: an empty-after-trim
title sets the error `'Title is required'` and returns without calling
`onSubmit`; otherwise `onSubmit({ title, description })` is called. -/
def handleSubmit (title description : JStr) : FormOutcome :=
  if jsTrim title = [] then .rejected (str "Title is required")
  else .submitted title description

/-- Modelled from the spec: the backend `TaskCreate` validation
(`backend/app/schemas.py`) is not under `src/`; per
`src/specs/database/schema.md` (`title: Field(..., min_length=1,
max_length=255)`, `description: Field(None, max_length=2000)`) and
`src/specs/api/rest-endpoints.md` (422 when "Title is empty or exceeds
max length"). -/
def validateTaskCreate (title description : JStr) : Bool :=
  decide (1 ≤ title.length) && decide (title.length ≤ 255) &&
    decide (description.length ≤ 2000)

/-- The submission pipeline: the form's `handleSubmit` followed by the
backend schema validation; `some` is a task payload accepted by both. -/
def submitTask (title description : JStr) : Option TaskCreate :=
  match handleSubmit title description with
  | .rejected _ => none
  | .submitted t d => if validateTaskCreate t d then some ⟨t, d⟩ else none

/-- Claim C7: a title that trims to the empty string makes
`handleSubmit` set the error `'Title is required'` without calling
`onSubmit`, and every accepted title is non-empty (even after trimming)
and within the 255-character bound. -/
theorem claim_C7 (title description : JStr) :
    (jsTrim title = [] →
      handleSubmit title description = .rejected (str "Title is required")) ∧
    (∀ p, submitTask title description = some p →
      p.title = title ∧ jsTrim p.title ≠ [] ∧ p.title.length ≤ 255) := by
  constructor
  · intro h
    simp [handleSubmit, h]
  · intro p hp
    by_cases h : jsTrim title = []
    · simp [submitTask, handleSubmit, h] at hp
    · simp only [submitTask, handleSubmit, if_neg h] at hp
      by_cases hv : validateTaskCreate title description
      · rw [if_pos hv] at hp
        injection hp with hp
        simp only [validateTaskCreate, Bool.and_eq_true, decide_eq_true_eq]
          at hv
        rw [← hp]
        exact ⟨rfl, h, hv.1.2⟩
      · rw [if_neg hv] at hp
        exact Option.noConfusion hp

/-- Witness for C7: a whitespace-only title is rejected with the exact
error, and a concrete accepted title is within bounds. -/
theorem claim_C7_witness :
    handleSubmit (str "   ") (str "") = .rejected (str "Title is required") ∧
    (str "Buy groceries" = str "Buy groceries" ∧
      jsTrim (str "Buy groceries") ≠ [] ∧
      (str "Buy groceries").length ≤ 255) :=
  ⟨(claim_C7 (str "   ") (str "")).1 (by decide),
   by
    have h := (claim_C7 (str "Buy groceries") (str "Milk")).2
      ⟨str "Buy groceries", str "Milk"⟩ (by decide)
    exact h⟩

/-! ## `apiRequest` (`src/unnamed/part_002` lines 22-88)

The network call itself is at the boundary: the embedding takes the
`fetch` response as input. A response's parsed JSON body is modelled to
the granularity the code observes: JSON `null`, an object with an
optional string `detail` field, or anything else; `none` stands for a
body on which `response.json()` rejects. -/

/-- The parsed JSON body of a response, to the granularity `apiRequest`
inspects it. -/
inductive Jsonish where
  | jnull
  | jobj (detail : Option JStr)
  | jother
deriving DecidableEq

/-- A `fetch` response: its status and its (parsed) JSON body, `none`
when the body is not valid JSON. -/
structure HttpResponse where
  status : Nat
  jsonBody : Option Jsonish
deriving DecidableEq

/-- `Response.ok`: status in the inclusive range 200-299. -/
def respOk (r : HttpResponse) : Bool :=
  decide (200 ≤ r.status) && decide (r.status ≤ 299)

/-- `errorData.detail ||` — `undefined` on non-objects, and the empty
string is falsy. -/
def detailOf : Jsonish → Option JStr
  | .jobj (some d) => if d = [] then none else some d
  | _ => none

/-- What `apiRequest` does for the caller: return a value normally or
throw an `Error` with a message. -/
inductive ApiOutcome where
  | returned (v : Jsonish)
  | threw (msg : JStr)
deriving DecidableEq

/-- `apiRequest` from the API client, past the `fetch`: the status
dispatch (401 clears the stored auth and redirects to `/login` when a
browser `window` exists, then throws; 403/404/422 throw; 204 returns
`null`; other non-ok statuses throw with the body's `detail` or a
generic message; ok statuses return the parsed body, a parse failure
being rethrown by the outer `catch`). Returns the outcome, the
resulting `localStorage`, and the redirect target if any. -/
def apiRequest (window : Bool) (st : Storage) (r : HttpResponse) :
    ApiOutcome × Storage × Option JStr :=
  if r.status = 401 then
    if window then
      (.threw (str "Unauthorized"),
        removeItem AUTH_USER_KEY (removeItem AUTH_TOKEN_KEY st),
        some (str "/login"))
    else (.threw (str "Unauthorized"), st, none)
  else if r.status = 403 then (.threw (str "Access denied"), st, none)
  else if r.status = 404 then (.threw (str "Resource not found"), st, none)
  else if r.status = 422 then
    match r.jsonBody with
    | none => (.threw (str "Unexpected token in JSON"), st, none)
    | some v => (.threw ((detailOf v).getD (str "Validation error")), st, none)
  else if r.status = 204 then (.returned .jnull, st, none)
  else if !(respOk r) then
    (.threw ((detailOf (r.jsonBody.getD (.jobj none))).getD
      (str "Request failed with status " ++ natDigits r.status)), st, none)
  else
    match r.jsonBody with
    | none => (.threw (str "Unexpected token in JSON"), st, none)
    | some v => (.returned v, st, none)

/-- Counterexample to claim C10 as stated: a 200 response whose body is
the JSON literal `null` makes `apiRequest` return `null` just like a
204 does (`return await response.json()` yields `null`), so "returns
null exactly when the status is 204" fails. -/
theorem claim_C10_counterexample :
    (apiRequest true [] ⟨200, some .jnull⟩).1 = .returned .jnull ∧
    (apiRequest true [] ⟨204, none⟩).1 = .returned .jnull ∧
    (200 : Nat) ≠ 204 := by
  decide

/-- Claim C10 (amended): `apiRequest` returns normally only for
successful responses — `null` for 204, and for any other ok status the
parsed JSON body (which is `null` exactly when the body itself is JSON
`null`); it throws for every non-ok status (401, 403, 404, 422 and the
rest); on a 401 in a browser context it removes `auth_token` and
`auth_user` from `localStorage` and redirects to `/login`; and no
non-401 status mutates the stored auth state. -/
theorem claim_C10_amended (w : Bool) (st : Storage) (r : HttpResponse) :
    (r.status = 204 → apiRequest w st r = (.returned .jnull, st, none)) ∧
    (respOk r = true → r.status ≠ 204 → ∀ v, r.jsonBody = some v →
      (apiRequest w st r).1 = .returned v) ∧
    (respOk r = false → ∃ m, (apiRequest w st r).1 = .threw m) ∧
    (r.status = 401 → w = true →
      (apiRequest w st r).2.1 =
        removeItem AUTH_USER_KEY (removeItem AUTH_TOKEN_KEY st) ∧
      (apiRequest w st r).2.2 = some (str "/login")) ∧
    (r.status ≠ 401 →
      (apiRequest w st r).2.1 = st ∧ (apiRequest w st r).2.2 = none) := by
  refine ⟨?_, ?_, ?_, ?_, ?_⟩
  · intro h
    simp [apiRequest, h]
  · intro hok h204 v hv
    have hr : 200 ≤ r.status ∧ r.status ≤ 299 := by
      simpa [respOk] using hok
    have h1 : r.status ≠ 401 := by omega
    have h2 : r.status ≠ 403 := by omega
    have h3 : r.status ≠ 404 := by omega
    have h4 : r.status ≠ 422 := by omega
    simp [apiRequest, h1, h2, h3, h4, h204, hok, hv]
  · intro hnok
    by_cases h1 : r.status = 401
    · by_cases hw : w
      · exact ⟨str "Unauthorized", by simp [apiRequest, h1, hw]⟩
      · exact ⟨str "Unauthorized", by simp [apiRequest, h1, hw]⟩
    · by_cases h2 : r.status = 403
      · exact ⟨str "Access denied", by simp [apiRequest, h1, h2]⟩
      · by_cases h3 : r.status = 404
        · exact ⟨str "Resource not found", by simp [apiRequest, h1, h2, h3]⟩
        · by_cases h4 : r.status = 422
          · cases hb : r.jsonBody with
            | none =>
              exact ⟨str "Unexpected token in JSON",
                by simp [apiRequest, h1, h2, h3, h4, hb]⟩
            | some v =>
              exact ⟨(detailOf v).getD (str "Validation error"),
                by simp [apiRequest, h1, h2, h3, h4, hb]⟩
          · have h5 : r.status ≠ 204 := by
              intro h
              rw [respOk, h] at hnok
              simp at hnok
            exact ⟨(detailOf (r.jsonBody.getD (.jobj none))).getD
                (str "Request failed with status " ++ natDigits r.status),
              by simp [apiRequest, h1, h2, h3, h4, h5, hnok]⟩
  · intro h1 hw
    simp [apiRequest, h1, hw]
  · intro h1
    by_cases h2 : r.status = 403
    · simp [apiRequest, h1, h2]
    · by_cases h3 : r.status = 404
      · simp [apiRequest, h1, h2, h3]
      · by_cases h4 : r.status = 422
        · cases hb : r.jsonBody with
          | none => simp [apiRequest, h1, h2, h3, h4, hb]
          | some v => simp [apiRequest, h1, h2, h3, h4, hb]
        · by_cases h5 : r.status = 204
          · simp [apiRequest, h1, h2, h3, h4, h5]
          · by_cases h6 : respOk r
            · cases hb : r.jsonBody with
              | none => simp [apiRequest, h1, h2, h3, h4, h5, h6, hb]
              | some v => simp [apiRequest, h1, h2, h3, h4, h5, h6, hb]
            · simp [apiRequest, h1, h2, h3, h4, h5, h6]

/-- Witness for the amended C10: a concrete 204 response returns `null`
without touching storage, and a concrete 401 clears the stored auth and
redirects to `/login`. -/
theorem claim_C10_amended_witness :
    apiRequest true [(str "auth_token", str "t")] ⟨204, none⟩ =
      (.returned .jnull, [(str "auth_token", str "t")], none) ∧
    (apiRequest true [(str "auth_token", str "t")] ⟨401, none⟩).2.1 =
        removeItem AUTH_USER_KEY
          (removeItem AUTH_TOKEN_KEY [(str "auth_token", str "t")]) ∧
      (apiRequest true [(str "auth_token", str "t")] ⟨401, none⟩).2.2 =
        some (str "/login") :=
  ⟨(claim_C10_amended true [(str "auth_token", str "t")] ⟨204, none⟩).1 rfl,
   (claim_C10_amended true [(str "auth_token", str "t")]
     ⟨401, none⟩).2.2.2.1 rfl rfl⟩

end TodoSpec
